import Mathlib

/-!
Shallow embedding of the greta-preview repository's workspace lifecycle and
build-orchestration pipeline, together with proofs of the specification's
claims about it.

The repository contains two Express servers implementing the same preview
pipeline with different publish strategies:

* `src/unnamed/part_000` — the local publish strategy: materialize the
  submitted file tree into an ephemeral workspace copied from a template,
  install dependencies, run the external build, verify the artifact set at
  the build output (`dist`), copy it into `public/{id}`, re-verify at the
  destination, clean the workspace up, and answer with a serving path.
* `src/preview-server.js` — the remote publish strategy: the same
  materialization and install phases followed by a deployment to a remote
  hosting API instead of a local copy.

The embedding models external effects (process invocations, filesystem
actions, HTTP calls) as an event trace, and the outcomes of the external
world (exit statuses of `npm install` / `npm run build`, presence of the
`dist` directory and its entries, remote API statuses) as an explicit
environment record.  Each handler is a pure function from an environment
and a request to the event trace it performs and the response it sends;
every event in the trace happens before the response is sent.
-/

namespace GretaPreview

/-- Fence marker that begins a fenced code block, from the source's
`content.startsWith("` + three backticks + `")` checks. -/
def fence : String := "```"

/-- Newline separator used by the source's `content.split` call. -/
def newline : String := "\n"

/-- Name of the required entry-point artifact, the default value of the
`requiredFiles` parameter of `verifyBuildArtifacts` in `part_000`. -/
def indexHtml : String := "index.html"

/-- Plain dependency-installation command, `npm install`, invoked against a
workspace root. -/
def npmInstallCmd : String := "npm install"

/-- External build command, `npm run build`. -/
def npmBuildCmd : String := "npm run build"

/-- Newline character used to split submitted content into lines. -/
def newlineChar : Char := ('\n')

/-- Split a character list on a separator character, keeping empty pieces,
with the semantics of JavaScript `String.prototype.split`: the empty input
yields one empty piece. -/
def splitOnChar (sep : Char) : List Char → List (List Char)
  | [] => [[]]
  | c :: cs =>
    let r := splitOnChar sep cs
    if c == sep then [] :: r
    else
      match r with
      | [] => [[c]]
      | h :: t => (c :: h) :: t

/-- JavaScript `content.split("\n")`. -/
def jsSplitLines (s : String) : List String :=
  (splitOnChar newlineChar s.toList).map String.mk

/-- JavaScript `String.prototype.startsWith`. -/
def jsStartsWith (s pre : String) : Bool :=
  pre.toList.isPrefixOf s.toList

/-- JavaScript `Array.prototype.join("\n")`. -/
def joinWithNewline : List String → String
  | [] => ""
  | [x] => x
  | x :: xs => x ++ newline ++ joinWithNewline xs

/-- Containment of one character list in another, as a contiguous run. -/
def listContainsSub (sub : List Char) : List Char → Bool
  | [] => sub.isEmpty
  | c :: cs => sub.isPrefixOf (c :: cs) || listContainsSub sub cs

/-- Submitted file-tree node, the tagged variant `File`/`Folder` of the
spec's data model.  A file's `content` is optional: the JSON field may be
absent (`undefined`/`null` in the source's checks). -/
inductive FileNode where
  | file (path : String) (content : Option String)
  | folder (path : String) (children : List FileNode)

/-- Fence stripping as both servers implement it: when the content starts
with the fence marker, split on newlines, drop the first and the last
element of the split (`lines.slice(1, -1)`), and re-join with newlines;
otherwise the content is returned unchanged. -/
def stripFence (content : String) : String :=
  if jsStartsWith content fence then
    joinWithNewline (((jsSplitLines content).drop 1).dropLast)
  else content

/-- Filesystem action performed while materializing the submitted tree into
the workspace (`ensureDir` of parent directories before each write is
elided; it does not affect any claim). -/
inductive MatEvent where
  | mkdir (path : String)
  | write (path : String) (content : String)
deriving DecidableEq

mutual

/-- Materialization of one node by `processFile` in `part_000`
(lines 310-343): a folder is created and its children processed
recursively; a file with content is written fence-stripped; a file with
absent (`undefined`/`null`) content is written as a zero-length file. -/
def processFile : FileNode → List MatEvent
  | FileNode.folder p children => MatEvent.mkdir p :: processFileList children
  | FileNode.file p (some c) => [MatEvent.write p (stripFence c)]
  | FileNode.file p none => [MatEvent.write p ("")]

/-- Materialization of a list of nodes in submission order, the `for` loop
over `files` (and over `file.children`) in `part_000`. -/
def processFileList : List FileNode → List MatEvent
  | [] => []
  | f :: fs => processFile f ++ processFileList fs

end

/-- Pipeline errors, mirroring the error taxonomy the two servers raise:
rejected `npm install` (`installError` with captured stderr), rejected
`npm run build` (`buildError` with captured stderr), missing `dist`
directory after a successful build (`missingDist`, the thrown
`Build completed but dist folder not found`), a missing required artifact
(`artifactMissing`, the thrown `Required build artifact not found: ...`),
the remote server's `TypeError` from calling `startsWith` on an absent
content value (`typeError`), and a non-success remote API response
(`deployError`). -/
inductive PipelineError where
  | installError (stderr : String)
  | buildError (stderr : String)
  | missingDist
  | artifactMissing (file : String)
  | typeError
  | deployError (body : String)
deriving DecidableEq

/-- Materialization of one child node in the remote server's create handler
(`preview-server.js` lines 419-431): each child of a folder is written as a
file from `childFile.content`; there is no null-check and no recursion, so
a child with absent content, or a folder child (whose `content` field is
`undefined`), makes `content.startsWith` throw a `TypeError`. -/
def remoteChildWrite : FileNode → Except PipelineError MatEvent
  | FileNode.file p (some c) => Except.ok (MatEvent.write p (stripFence c))
  | FileNode.file _ none => Except.error PipelineError.typeError
  | FileNode.folder _ _ => Except.error PipelineError.typeError

/-- Materialization of a folder's children in the remote server, stopping
at the first failing child and keeping the writes performed before it. -/
def remoteChildWrites : List FileNode → List MatEvent × Option PipelineError
  | [] => ([], none)
  | c :: cs =>
    match remoteChildWrite c with
    | Except.ok ev =>
      let r := remoteChildWrites cs
      (ev :: r.1, r.2)
    | Except.error e => ([], some e)

/-- Materialization of one top-level node in the remote server's create
handler (`preview-server.js` lines 411-441): a folder is created and its
children written; any non-folder node is written from `file.content` with
fence stripping, and absent content makes `content.startsWith` throw. -/
def remoteProcessTop : FileNode → List MatEvent × Option PipelineError
  | FileNode.folder p children =>
    let r := remoteChildWrites children
    (MatEvent.mkdir p :: r.1, r.2)
  | FileNode.file p (some c) => ([MatEvent.write p (stripFence c)], none)
  | FileNode.file _ none => ([], some PipelineError.typeError)

/-- Materialization of the submitted top-level node list in the remote
server, stopping at the first failure. -/
def remoteProcessList : List FileNode → List MatEvent × Option PipelineError
  | [] => ([], none)
  | f :: fs =>
    match remoteProcessTop f with
    | (evs, some e) => (evs, some e)
    | (evs, none) =>
      let r := remoteProcessList fs
      (evs ++ r.1, r.2)

/-- External action performed by a pipeline run, in the order it happens;
the full trace of a handler is everything it does before sending its
response. -/
inductive Event where
  | readDir (path : String)
  | execCmd (cmd : String) (cwd : String)
  | ensureDir (path : String)
  | copyDir (src : String) (dst : String)
  | verified (dir : String) (file : String)
  | removeDir (path : String)
  | warnCleanup (path : String)
  | httpReq (descr : String)
  | matEv (e : MatEvent)
deriving DecidableEq

/-- Outcomes of the external world for one local-strategy pipeline run:
whether each external command exits zero (with its captured stderr when it
does not), whether the build produces a `dist` directory, which entries
exist under it, and whether the workspace removal succeeds. -/
structure Env where
  installOk : Bool
  installStderr : String
  extraInstallOk : Bool
  extraInstallStderr : String
  buildOk : Bool
  buildStderr : String
  distExists : Bool
  distEntries : List String
  removeOk : Bool
deriving DecidableEq

/-- Successful response body of the local create pipeline,
`{ url, preview_id }`. -/
structure CreateResult where
  url : String
  preview_id : String
deriving DecidableEq

/-- Decidable equality on pipeline results, for evaluating the model at
concrete inputs. -/
instance : DecidableEq (Except PipelineError CreateResult) := fun a b =>
  match a, b with
  | Except.ok x, Except.ok y =>
    if h : x = y then isTrue (by rw [h]) else isFalse (by simp [h])
  | Except.error x, Except.error y =>
    if h : x = y then isTrue (by rw [h]) else isFalse (by simp [h])
  | Except.ok _, Except.error _ => isFalse (by simp)
  | Except.error _, Except.ok _ => isFalse (by simp)

/-- Required artifact list, the default `['index.html']` of
`verifyBuildArtifacts`. -/
def requiredArtifacts : List String := [indexHtml]

/-- Artifact verification from `part_000` lines 41-48: for each required
file in order, check that it exists under `buildPath` (modelled by
membership in `entries`); the first missing entry aborts with an
`artifactMissing` error naming it.  Returns the successful existence
checks as `verified` events together with the error, if any.  Content is
never inspected, only presence. -/
def verifyBuildArtifacts (dir : String) (entries : List String) :
    List String → List Event × Option PipelineError
  | [] => ([], none)
  | f :: rest =>
    if entries.contains f then
      let r := verifyBuildArtifacts dir entries rest
      (Event.verified dir f :: r.1, r.2)
    else ([], some (PipelineError.artifactMissing f))

/-- Ephemeral workspace directory for an id, `path.join(PREVIEW_DIR, id)`
with the server directory elided. -/
def previewRoot (id : String) : String := "previews/" ++ id

/-- Public output directory for an id, `path.join(PUBLIC_DIR, id)` with the
server directory elided. -/
def publicRoot (id : String) : String := "public/" ++ id

/-- Relative path under which the public directory is elided; used by the
cleanup guard's `previewPath.includes(PUBLIC_DIR)` check. -/
def publicDirName : String := "public"

/-- Local-strategy pipeline `createPreview(sitePath, id)` from `part_000`
lines 64-107: list the workspace, run `npm install` and `npm run build`
there, require the `dist` directory, verify the artifact set at `dist`,
then create `public/{id}`, copy `dist` into it, re-verify the artifact set
at the destination (the copy replicates the `dist` entries, so the same
entry list is checked), list the public directory, and return the serving
path.  Any failure propagates as the corresponding error with no further
events. -/
def createPreview (env : Env) (sitePath : String) (id : String) :
    List Event × Except PipelineError CreateResult :=
  let distPath := sitePath ++ "/dist"
  let ev0 := [Event.readDir sitePath, Event.execCmd npmInstallCmd sitePath]
  if env.installOk then
    let ev1 := ev0 ++ [Event.execCmd npmBuildCmd sitePath]
    if env.buildOk then
      if env.distExists then
        match verifyBuildArtifacts distPath env.distEntries requiredArtifacts with
        | (vevs, some e) => (ev1 ++ vevs, Except.error e)
        | (vevs, none) =>
          let pubPath := publicRoot id
          let ev2 := ev1 ++ vevs ++
            [Event.ensureDir pubPath, Event.copyDir distPath pubPath]
          match verifyBuildArtifacts pubPath env.distEntries requiredArtifacts with
          | (vevs2, some e2) => (ev2 ++ vevs2, Except.error e2)
          | (vevs2, none) =>
            (ev2 ++ vevs2 ++ [Event.readDir pubPath],
             Except.ok ⟨"/preview/" ++ id, id⟩)
      else (ev1, Except.error PipelineError.missingDist)
    else (ev1, Except.error (PipelineError.buildError env.buildStderr))
  else (ev0, Except.error (PipelineError.installError env.installStderr))

/-- Body of a create request, `{ id, files, dependencies = [] }`. -/
structure Request where
  id : String
  files : List FileNode
  dependencies : List String

/-- Response of the local create handler: either the success JSON
`{ url, preview_id }` or an HTTP error status with the pipeline error. -/
inductive Response where
  | ok (r : CreateResult)
  | err (status : Nat) (e : PipelineError)
deriving DecidableEq

/-- Second install command naming exactly the listed extra dependencies,
`npm install ` + `dependencies.join(" ")`. -/
def depInstallCmd (deps : List String) : String :=
  npmInstallCmd ++ " " ++ String.intercalate (" ") deps

/-- JavaScript `String.prototype.includes` for a non-empty search string:
`sub` occurs somewhere in `s` as a contiguous run. -/
def jsIncludes (s sub : String) : Bool :=
  listContainsSub sub.toList s.toList

/-- Guard on workspace cleanup in `part_000` (lines 365 and 385):
`previewPath !== publicOutputPath && !previewPath.includes(PUBLIC_DIR)`. -/
def cleanupGuard (id : String) : Bool :=
  previewRoot id != publicRoot id && !(jsIncludes (previewRoot id) publicDirName)

/-- Workspace cleanup step of the local create handler, run on both the
success path (lines 362-371) and the failure path (lines 385-392): when the
guard allows it, remove the ephemeral workspace; a removal failure is only
logged as a warning and never escalates. -/
def cleanupWorkspace (env : Env) (id : String) : List Event :=
  if cleanupGuard id then
    if env.removeOk then [Event.removeDir (previewRoot id)]
    else [Event.warnCleanup (previewRoot id)]
  else []

/-- Local create handler, `POST /api/preview/create` in `part_000`
(lines 291-399): create the workspace, copy the template in, materialize
the submitted nodes, install the extra dependencies when the list is
non-empty (this happens before `createPreview`, whose first step is the
plain `npm install`), run the pipeline, clean the workspace up on both
paths, and answer 200 with the result or 500 with the error. -/
def createHandler (env : Env) (req : Request) : List Event × Response :=
  let matEvs := (processFileList req.files).map Event.matEv
  let ev0 := [Event.ensureDir (previewRoot req.id),
              Event.copyDir ("template") (previewRoot req.id)] ++ matEvs
  let extraStep : List Event × Option PipelineError :=
    if req.dependencies.isEmpty then (ev0, none)
    else
      let evs := ev0 ++ [Event.execCmd (depInstallCmd req.dependencies) (previewRoot req.id)]
      if env.extraInstallOk then (evs, none)
      else (evs, some (PipelineError.installError env.extraInstallStderr))
  match extraStep with
  | (ev1, some e) =>
    (ev1 ++ cleanupWorkspace env req.id, Response.err 500 e)
  | (ev1, none) =>
    match createPreview env (previewRoot req.id) req.id with
    | (pevs, Except.ok r) =>
      (ev1 ++ pevs ++ cleanupWorkspace env req.id, Response.ok r)
    | (pevs, Except.error e) =>
      (ev1 ++ pevs ++ cleanupWorkspace env req.id, Response.err 500 e)

/-- Outcomes of the external world for one remote-strategy pipeline run:
exit statuses of the install and build commands and the statuses and data
of the three remote API calls. -/
structure RemoteEnv where
  installOk : Bool
  installStderr : String
  extraInstallOk : Bool
  extraInstallStderr : String
  buildOk : Bool
  buildStderr : String
  authOk : Bool
  projectOk : Bool
  deployOk : Bool
  deployUrl : String
  deploymentId : String
  projectId : String
deriving DecidableEq

/-- Successful response body of the remote create pipeline,
`{ url, deployment_id, project_id }`. -/
structure RemoteResult where
  url : String
  deployment_id : String
  project_id : String
deriving DecidableEq

/-- Response of the remote create handler. -/
inductive RemoteResponse where
  | ok (r : RemoteResult)
  | err (status : Nat) (e : PipelineError)
deriving DecidableEq

/-- Remote deployment, `deployToVercel(sitePath)` in `preview-server.js`
lines 127-235: run the external build, then authenticate, create a remote
project, and submit the deployment; any non-success response aborts with a
`deployError`.  File reads for the upload payload are elided. -/
def deployToVercel (env : RemoteEnv) (sitePath : String) :
    List Event × Except PipelineError RemoteResult :=
  let ev0 := [Event.execCmd npmBuildCmd sitePath]
  if env.buildOk then
    let ev1 := ev0 ++ [Event.httpReq ("GET /v2/user")]
    if env.authOk then
      let ev2 := ev1 ++ [Event.httpReq ("POST /v9/projects")]
      if env.projectOk then
        let ev3 := ev2 ++ [Event.httpReq ("POST /v13/deployments")]
        if env.deployOk then
          (ev3, Except.ok ⟨"https://" ++ env.deployUrl, env.deploymentId, env.projectId⟩)
        else (ev3, Except.error (PipelineError.deployError ("deploy")))
      else (ev2, Except.error (PipelineError.deployError ("project")))
    else (ev1, Except.error (PipelineError.deployError ("auth")))
  else (ev0, Except.error (PipelineError.buildError env.buildStderr))

/-- Remote create handler, `POST /api/preview/create` in
`preview-server.js` (lines 395-495): create the workspace, copy the
template in, materialize the submitted nodes (fallibly — absent content
throws), run the plain `npm install` first and then the extra-dependency
install, deploy remotely, and answer.  The workspace-removal calls on both
the success path (lines 466-469) and the failure path (lines 483-484) are
commented out in the source, so no removal event is ever emitted. -/
def remoteCreateHandler (env : RemoteEnv) (req : Request) :
    List Event × RemoteResponse :=
  let ev0 := [Event.ensureDir (previewRoot req.id),
              Event.copyDir ("template") (previewRoot req.id)]
  match remoteProcessList req.files with
  | (mevs, some e) =>
    (ev0 ++ mevs.map Event.matEv, RemoteResponse.err 500 e)
  | (mevs, none) =>
    let ev1 := ev0 ++ mevs.map Event.matEv ++
      [Event.execCmd npmInstallCmd (previewRoot req.id)]
    if env.installOk then
      let extraStep : List Event × Option PipelineError :=
        if req.dependencies.isEmpty then (ev1, none)
        else
          let evs := ev1 ++ [Event.execCmd (depInstallCmd req.dependencies) (previewRoot req.id)]
          if env.extraInstallOk then (evs, none)
          else (evs, some (PipelineError.installError env.extraInstallStderr))
      match extraStep with
      | (ev2, some e) => (ev2, RemoteResponse.err 500 e)
      | (ev2, none) =>
        match deployToVercel env (previewRoot req.id) with
        | (devs, Except.ok r) => (ev2 ++ devs, RemoteResponse.ok r)
        | (devs, Except.error e) => (ev2 ++ devs, RemoteResponse.err 500 e)
    else (ev1, RemoteResponse.err 500 (PipelineError.installError env.installStderr))

/-- Commands a trace invokes, in order. -/
def execCmds (evs : List Event) : List String :=
  evs.filterMap (fun e => match e with
    | Event.execCmd c _ => some c
    | _ => none)

/-- Predicate for workspace-removal events. -/
def isRemoveEvent : Event → Bool
  | Event.removeDir _ => true
  | _ => false

/-- Predicate for the two kinds of error the spec groups as `BuildError`:
a non-zero build exit, or a successful build with no `dist` directory. -/
def isBuildErr : PipelineError → Bool
  | PipelineError.buildError _ => true
  | PipelineError.missingDist => true
  | _ => false

/-- Boolean success test on a local pipeline result. -/
def resultOk : Except PipelineError CreateResult → Bool
  | Except.ok _ => true
  | Except.error _ => false

/-!
Filesystem model for the cleanup claims.  A path is a list of components,
a filesystem the list of all existing paths (directories included).
`fs.remove(p)` removes `p` and everything below it; `fs.pathExists(p)`
checks the presence of exactly `p`.
-/

/-- Filesystem path as a list of components. -/
abbrev FsPath := List String

/-- Component-wise path-prefix test: `isPathPrefix root p` holds when `p`
is `root` itself or lies below it. -/
def isPathPrefix : FsPath → FsPath → Bool
  | [], _ => true
  | _ :: _, [] => false
  | a :: as, b :: bs => a == b && isPathPrefix as bs

/-- Semantics of `fs.remove(root)`: delete `root` and its whole subtree. -/
def removeSubtree (root : FsPath) (fs : List FsPath) : List FsPath :=
  fs.filter (fun p => !(isPathPrefix root p))

/-- Filesystem semantics of the workspace-cleanup step of the local create
handler: when the guard allows it, remove the `previews/{id}` subtree;
otherwise do nothing. -/
def workspaceCleanupFS (id : String) (fs : List FsPath) : List FsPath :=
  if cleanupGuard id then removeSubtree ["previews", id] fs else fs

/-- Public-cleanup endpoint, `POST /api/preview/cleanup` in `part_000`
(lines 496-509): if `public/{id}` exists, remove it; in every case that
raises nothing, answer `{ success: true }`.  The answer is the triple
(resulting filesystem, success flag, error message if any); `removeOk`
models whether the removal call succeeds when it runs. -/
def cleanupPublicHandler (removeOk : Bool) (id : String) (fs : List FsPath) :
    List FsPath × Bool × Option String :=
  let p : FsPath := ["public", id]
  if fs.contains p then
    if removeOk then (removeSubtree p fs, true, none)
    else (fs, false, some ("remove failed"))
  else (fs, true, none)

/-!
Definition modelled from the spec's words, for the refinement comparison of
claim C2 only: "exactly one leading and one trailing fence-delimiter line
removed".
-/

/-- Helper for `linesWithTerminator`: reattach the newline terminators to
the pieces of a newline split, discarding the empty trailing piece a final
newline produces. -/
def reattachTerminators : List String → List String
  | [] => []
  | [last] => if last = "" then [] else [last]
  | a :: rest => (a ++ newline) :: reattachTerminators rest

/-- Lines of a string, each keeping its newline terminator; a trailing
empty segment after a final newline is not a line. -/
def linesWithTerminator (s : String) : List String :=
  reattachTerminators (jsSplitLines s)

/-- Drop a line's trailing newline terminator, if it has one. -/
def stripTerminator (l : String) : String :=
  if l.toList.getLast? == some newlineChar then String.mk (l.toList.dropLast) else l

/-- Modelled from the spec: fence-stripped content is the submitted content
"with exactly one leading and one trailing fence-delimiter line removed
when present" — remove the leading line when it starts with the fence
marker, remove the final line when it is a fence-delimiter line, and keep
everything else. -/
def specFenceStrip (s : String) : String :=
  if jsStartsWith s fence then
    let ls := (linesWithTerminator s).drop 1
    let lastIsFence :=
      match ls.getLast? with
      | some l => jsStartsWith (stripTerminator l) fence
      | none => false
    String.join (if lastIsFence then ls.dropLast else ls)
  else s

/-!
Concrete environments and requests used by witnesses and counterexamples.
-/

/-- Local environment in which every external step succeeds and the build
produces a `dist` directory containing the entry point. -/
def envOK : Env := ⟨true, "", true, "", true, "", true, [indexHtml, "assets"], true⟩

/-- Remote environment in which every external step succeeds. -/
def renvOK : RemoteEnv :=
  ⟨true, "", true, "", true, "", true, true, true, "x.vercel.app", "dep1", "proj1"⟩

/-- Request with no submitted nodes and no extra dependencies. -/
def reqNoDeps : Request := ⟨"abc123", [], []⟩

/-- Request with no submitted nodes and one extra dependency. -/
def reqLodash : Request := ⟨"abc123", [], ["lodash"]⟩

/-!
Helper lemmas.
-/

/-- Verification of the default artifact list reduces to one membership
test of the entry-point document. -/
theorem verify_default (dir : String) (entries : List String) :
    verifyBuildArtifacts dir entries requiredArtifacts =
      if entries.contains indexHtml
      then ([Event.verified dir indexHtml], none)
      else ([], some (PipelineError.artifactMissing indexHtml)) := by
  by_cases hc : entries.contains indexHtml
  · simp [requiredArtifacts, verifyBuildArtifacts, hc]
  · simp [requiredArtifacts, verifyBuildArtifacts, hc]

/-- Explicit event trace of a fully successful local pipeline run: install,
build, verify at `dist`, create and populate the public directory, verify
at the destination. -/
def successTrace (site id : String) : List Event :=
  [Event.readDir site,
   Event.execCmd npmInstallCmd site,
   Event.execCmd npmBuildCmd site,
   Event.verified (site ++ "/dist") indexHtml,
   Event.ensureDir (publicRoot id),
   Event.copyDir (site ++ "/dist") (publicRoot id),
   Event.verified (publicRoot id) indexHtml,
   Event.readDir (publicRoot id)]

/-- Case lemma: failed plain install. -/
theorem createPreview_install_fail (env : Env) (site id : String)
    (hI : env.installOk = false) :
    createPreview env site id =
      ([Event.readDir site, Event.execCmd npmInstallCmd site],
       Except.error (PipelineError.installError env.installStderr)) := by
  simp [createPreview, hI]

/-- Case lemma: failed build command. -/
theorem createPreview_build_fail (env : Env) (site id : String)
    (hI : env.installOk = true) (hB : env.buildOk = false) :
    createPreview env site id =
      ([Event.readDir site, Event.execCmd npmInstallCmd site,
        Event.execCmd npmBuildCmd site],
       Except.error (PipelineError.buildError env.buildStderr)) := by
  simp [createPreview, hI, hB]

/-- Case lemma: build succeeded but no `dist` directory. -/
theorem createPreview_no_dist (env : Env) (site id : String)
    (hI : env.installOk = true) (hB : env.buildOk = true)
    (hD : env.distExists = false) :
    createPreview env site id =
      ([Event.readDir site, Event.execCmd npmInstallCmd site,
        Event.execCmd npmBuildCmd site],
       Except.error PipelineError.missingDist) := by
  simp [createPreview, hI, hB, hD]

/-- Case lemma: `dist` exists but the entry point is missing. -/
theorem createPreview_verify_fail (env : Env) (site id : String)
    (hI : env.installOk = true) (hB : env.buildOk = true)
    (hD : env.distExists = true)
    (hc : env.distEntries.contains indexHtml = false) :
    createPreview env site id =
      ([Event.readDir site, Event.execCmd npmInstallCmd site,
        Event.execCmd npmBuildCmd site],
       Except.error (PipelineError.artifactMissing indexHtml)) := by
  have hc2 : indexHtml ∉ env.distEntries := by simpa using hc
  simp [createPreview, hI, hB, hD, verify_default, hc2]

/-- Case lemma: fully successful run. -/
theorem createPreview_success (env : Env) (site id : String)
    (hI : env.installOk = true) (hB : env.buildOk = true)
    (hD : env.distExists = true)
    (hc : env.distEntries.contains indexHtml = true) :
    createPreview env site id =
      (successTrace site id, Except.ok ⟨"/preview/" ++ id, id⟩) := by
  have hc2 : indexHtml ∈ env.distEntries := by simpa using hc
  simp [createPreview, hI, hB, hD, verify_default, hc2, successTrace]

/-- Claim C1: for every create request under the local publish strategy,
the public output directory for the id is populated only after every entry
of the ArtifactSet has been verified to exist at the build output
directory (verify-before-copy), and, after the copy, the ArtifactSet is
verified again at the destination before the pipeline reports success
(returns the serving path).  Formalized on the pipeline `createPreview`:
a successful run performs exactly the trace in which verification at the
build output precedes the creation and population of the public directory,
which precede the verification at the destination; and a run that does not
report success never copies anything into the public directory. -/
theorem claim_C1 (env : Env) (site id : String) :
    (∀ r, (createPreview env site id).2 = Except.ok r →
      (createPreview env site id).1 = successTrace site id
      ∧ r = ⟨"/preview/" ++ id, id⟩)
    ∧ (resultOk (createPreview env site id).2 = false →
      ∀ s d, Event.copyDir s d ∉ (createPreview env site id).1
        ∧ Event.ensureDir (publicRoot id) ∉ (createPreview env site id).1) := by
  by_cases hI : env.installOk
  · by_cases hB : env.buildOk
    · by_cases hD : env.distExists
      · by_cases hc : env.distEntries.contains indexHtml
        · rw [createPreview_success env site id hI hB hD hc]
          constructor
          · intro r hr
            refine ⟨rfl, ?_⟩
            exact (Except.ok.injEq _ _).mp hr.symm |>.symm ▸ rfl
          · intro hfail
            simp [resultOk] at hfail
        · have hc' : env.distEntries.contains indexHtml = false := by
            simpa using hc
          rw [createPreview_verify_fail env site id hI hB hD hc']
          refine ⟨fun r hr => by simp at hr, fun _ s d => by simp⟩
      · rw [createPreview_no_dist env site id hI hB (by simpa using hD)]
        refine ⟨fun r hr => by simp at hr, fun _ s d => by simp⟩
    · rw [createPreview_build_fail env site id hI (by simpa using hB)]
      refine ⟨fun r hr => by simp at hr, fun _ s d => by simp⟩
  · rw [createPreview_install_fail env site id (by simpa using hI)]
    refine ⟨fun r hr => by simp at hr, fun _ s d => by simp⟩

/-- Witness for claim C1 at a concrete successful run. -/
theorem claim_C1_witness :
    (createPreview envOK ("previews/abc123") ("abc123")).2 =
      Except.ok ⟨"/preview/abc123", "abc123"⟩
    ∧ (createPreview envOK ("previews/abc123") ("abc123")).1 =
      successTrace ("previews/abc123") ("abc123") :=
  ⟨by decide,
   ((claim_C1 envOK ("previews/abc123") ("abc123")).1
     ⟨"/preview/abc123", "abc123"⟩ (by decide)).1⟩

/-- Directory names: the public output directory of an id is never the
ephemeral workspace directory of the same id. -/
theorem publicRoot_ne_previewRoot (id : String) :
    publicRoot id ≠ previewRoot id := by
  intro h
  have h2 : ("public/" ++ id).toList = ("previews/" ++ id).toList := by
    simpa [publicRoot, previewRoot] using congrArg String.toList h
  have h3 : ("public/").toList ++ id.toList = ("previews/").toList ++ id.toList := h2
  have h4 := congrArg List.length h3
  have h5 : ("public/").toList.length = 7 := by decide
  have h6 : ("previews/").toList.length = 9 := by decide
  simp [List.length_append, h5, h6] at h4

/-- Shape of the local handler's workspace-cleanup events: each is either
the removal of the workspace directory or the warning its failure logs. -/
theorem mem_cleanup_shape (env : Env) (id : String) (e : Event)
    (h : e ∈ cleanupWorkspace env id) :
    e = Event.removeDir (previewRoot id) ∨ e = Event.warnCleanup (previewRoot id) := by
  by_cases hg : cleanupGuard id <;> by_cases hr : env.removeOk <;>
    simp [cleanupWorkspace, hg, hr] at h <;> simp [h]

/-- Cleanup never creates a directory. -/
@[simp] theorem ensureDir_not_mem_cleanup (env : Env) (id p : String) :
    Event.ensureDir p ∉ cleanupWorkspace env id := by
  by_cases hg : cleanupGuard id <;> by_cases hr : env.removeOk <;>
    simp [cleanupWorkspace, hg, hr]

/-- Cleanup never copies a directory. -/
@[simp] theorem copyDir_not_mem_cleanup (env : Env) (id s d : String) :
    Event.copyDir s d ∉ cleanupWorkspace env id := by
  by_cases hg : cleanupGuard id <;> by_cases hr : env.removeOk <;>
    simp [cleanupWorkspace, hg, hr]

/-- Decomposition of the local create handler once the extra-dependency
install (when any) has succeeded: the trace is the workspace setup, the
materialization, the optional extra install, the pipeline events, and the
cleanup; the response only reflects the pipeline result. -/
theorem createHandler_eq_of_extras_ok (env : Env) (req : Request)
    (hX : env.extraInstallOk = true) :
    createHandler env req =
      ([Event.ensureDir (previewRoot req.id),
        Event.copyDir ("template") (previewRoot req.id)]
        ++ (processFileList req.files).map Event.matEv
        ++ (if req.dependencies.isEmpty then []
            else [Event.execCmd (depInstallCmd req.dependencies) (previewRoot req.id)])
        ++ (createPreview env (previewRoot req.id) req.id).1
        ++ cleanupWorkspace env req.id,
       match (createPreview env (previewRoot req.id) req.id).2 with
       | Except.ok r => Response.ok r
       | Except.error e => Response.err 500 e) := by
  rcases h : createPreview env (previewRoot req.id) req.id with ⟨pevs, res⟩
  by_cases hdep : req.dependencies.isEmpty <;>
    cases res <;> simp [createHandler, hdep, hX, h]

/-- Claim C3: for every create request where the build output directory
lacks the required entry-point document (`index.html`), no public artifact
directory for that id is created and the call fails with an
artifact-verification error naming the missing entry. -/
theorem claim_C3 (env : Env) (req : Request)
    (hI : env.installOk = true) (hX : env.extraInstallOk = true)
    (hB : env.buildOk = true) (hD : env.distExists = true)
    (hc : env.distEntries.contains indexHtml = false) :
    (createHandler env req).2 =
      Response.err 500 (PipelineError.artifactMissing indexHtml)
    ∧ Event.ensureDir (publicRoot req.id) ∉ (createHandler env req).1
    ∧ ∀ s, Event.copyDir s (publicRoot req.id) ∉ (createHandler env req).1 := by
  have hne := publicRoot_ne_previewRoot req.id
  have hcp := createPreview_verify_fail env (previewRoot req.id) req.id hI hB hD hc
  rw [createHandler_eq_of_extras_ok env req hX, hcp]
  refine ⟨rfl, ?_, ?_⟩
  · by_cases hdep : req.dependencies.isEmpty <;>
      simp [List.mem_append, hdep, hne]
  · intro s
    by_cases hdep : req.dependencies.isEmpty <;>
      simp [List.mem_append, hdep, hne]

/-- Witness for claim C3: concrete environment whose build output lacks
the entry point. -/
theorem claim_C3_witness :
    ((⟨true, "", true, "", true, "", true, ["bundle.js"], true⟩ : Env).distEntries.contains indexHtml = false)
    ∧ (createHandler ⟨true, "", true, "", true, "", true, ["bundle.js"], true⟩ reqNoDeps).2 =
        Response.err 500 (PipelineError.artifactMissing indexHtml) :=
  ⟨by decide,
   (claim_C3 ⟨true, "", true, "", true, "", true, ["bundle.js"], true⟩ reqNoDeps
     rfl rfl rfl rfl (by decide)).1⟩

/-- Boolean test grouping the two error forms the spec calls `BuildError`:
the pipeline result is an error that is a non-zero build exit or a missing
`dist` directory. -/
def resultIsBuildErr : Except PipelineError CreateResult → Bool
  | Except.ok _ => false
  | Except.error e => isBuildErr e

/-- Claim C4: the build stage fails with a BuildError exactly when the
external build command exits non-zero (carrying captured stderr) or when
the command succeeds but no `dist` output directory exists; in either case
no later stage runs, no public artifact is created, and the caller
receives an error response (no state reaches Published). -/
theorem claim_C4 (env : Env) (req : Request)
    (hI : env.installOk = true) (hX : env.extraInstallOk = true) :
    (resultIsBuildErr (createPreview env (previewRoot req.id) req.id).2 = true
      ↔ (env.buildOk = false ∨ env.distExists = false))
    ∧ (env.buildOk = false →
        (createHandler env req).2 =
          Response.err 500 (PipelineError.buildError env.buildStderr))
    ∧ (env.buildOk = true → env.distExists = false →
        (createHandler env req).2 = Response.err 500 PipelineError.missingDist)
    ∧ ((env.buildOk = false ∨ env.distExists = false) →
        (createPreview env (previewRoot req.id) req.id).1 =
          [Event.readDir (previewRoot req.id),
           Event.execCmd npmInstallCmd (previewRoot req.id),
           Event.execCmd npmBuildCmd (previewRoot req.id)]
        ∧ Event.ensureDir (publicRoot req.id) ∉ (createHandler env req).1
        ∧ (∀ s, Event.copyDir s (publicRoot req.id) ∉ (createHandler env req).1)
        ∧ ∀ r, (createHandler env req).2 ≠ Response.ok r) := by
  have hne := publicRoot_ne_previewRoot req.id
  have hfail : env.buildOk = false ∨ env.distExists = false →
      createPreview env (previewRoot req.id) req.id =
        ([Event.readDir (previewRoot req.id),
          Event.execCmd npmInstallCmd (previewRoot req.id),
          Event.execCmd npmBuildCmd (previewRoot req.id)],
         Except.error (if env.buildOk then PipelineError.missingDist
                       else PipelineError.buildError env.buildStderr)) := by
    intro h
    by_cases hB : env.buildOk
    · have hD : env.distExists = false := by
        rcases h with h | h
        · rw [hB] at h
          simp at h
        · exact h
      rw [createPreview_no_dist env (previewRoot req.id) req.id hI hB hD]
      simp [hB]
    · have hB' : env.buildOk = false := by simpa using hB
      rw [createPreview_build_fail env (previewRoot req.id) req.id hI hB']
      simp [hB']
  refine ⟨?_, ?_, ?_, ?_⟩
  · constructor
    · intro h
      by_cases hB : env.buildOk
      · by_cases hD : env.distExists
        · by_cases hc : env.distEntries.contains indexHtml
          · rw [createPreview_success env (previewRoot req.id) req.id hI hB hD hc] at h
            simp [resultIsBuildErr] at h
          · rw [createPreview_verify_fail env (previewRoot req.id) req.id hI hB hD
              (by simpa using hc)] at h
            simp [resultIsBuildErr, isBuildErr] at h
        · right
          simpa using hD
      · left
        simpa using hB
    · intro h
      rw [hfail h]
      by_cases hB : env.buildOk <;> simp [resultIsBuildErr, isBuildErr, hB]
  · intro hB
    rw [createHandler_eq_of_extras_ok env req hX, hfail (Or.inl hB)]
    simp [hB]
  · intro hB hD
    rw [createHandler_eq_of_extras_ok env req hX, hfail (Or.inr hD)]
    simp [hB]
  · intro h
    have htr := hfail h
    refine ⟨by rw [htr], ?_, ?_, ?_⟩
    · rw [createHandler_eq_of_extras_ok env req hX, htr]
      by_cases hdep : req.dependencies.isEmpty <;>
        simp [List.mem_append, hdep, hne]
    · intro s
      rw [createHandler_eq_of_extras_ok env req hX, htr]
      by_cases hdep : req.dependencies.isEmpty <;>
        simp [List.mem_append, hdep, hne]
    · intro r
      rw [createHandler_eq_of_extras_ok env req hX, htr]
      simp

/-- Witness for claim C4 at a concrete failed build. -/
theorem claim_C4_witness :
    ((⟨true, "", true, "", false, "tsc error", true, [indexHtml], true⟩ : Env).buildOk = false)
    ∧ (createHandler ⟨true, "", true, "", false, "tsc error", true, [indexHtml], true⟩ reqNoDeps).2 =
        Response.err 500 (PipelineError.buildError ("tsc error")) :=
  ⟨rfl,
   (claim_C4 ⟨true, "", true, "", false, "tsc error", true, [indexHtml], true⟩ reqNoDeps
     rfl rfl).2.1 rfl⟩

/-- Commands of an appended trace. -/
@[simp] theorem execCmds_append (a b : List Event) :
    execCmds (a ++ b) = execCmds a ++ execCmds b := by
  simp [execCmds, List.filterMap_append]

/-- Commands of the empty trace. -/
@[simp] theorem execCmds_nil : execCmds [] = [] := rfl

/-- A command invocation contributes its command string. -/
@[simp] theorem execCmds_exec (c w : String) (l : List Event) :
    execCmds (Event.execCmd c w :: l) = c :: execCmds l := rfl

/-- Directory listings contribute no command. -/
@[simp] theorem execCmds_readDir (p : String) (l : List Event) :
    execCmds (Event.readDir p :: l) = execCmds l := rfl

/-- Directory creations contribute no command. -/
@[simp] theorem execCmds_ensureDir (p : String) (l : List Event) :
    execCmds (Event.ensureDir p :: l) = execCmds l := rfl

/-- Directory copies contribute no command. -/
@[simp] theorem execCmds_copyDir (s d : String) (l : List Event) :
    execCmds (Event.copyDir s d :: l) = execCmds l := rfl

/-- Verification checks contribute no command. -/
@[simp] theorem execCmds_verified (dir f : String) (l : List Event) :
    execCmds (Event.verified dir f :: l) = execCmds l := rfl

/-- Directory removals contribute no command. -/
@[simp] theorem execCmds_removeDir (p : String) (l : List Event) :
    execCmds (Event.removeDir p :: l) = execCmds l := rfl

/-- Cleanup warnings contribute no command. -/
@[simp] theorem execCmds_warn (p : String) (l : List Event) :
    execCmds (Event.warnCleanup p :: l) = execCmds l := rfl

/-- HTTP requests contribute no command. -/
@[simp] theorem execCmds_httpReq (d : String) (l : List Event) :
    execCmds (Event.httpReq d :: l) = execCmds l := rfl

/-- Materialization events contribute no command. -/
@[simp] theorem execCmds_matEvCons (m : MatEvent) (l : List Event) :
    execCmds (Event.matEv m :: l) = execCmds l := rfl

/-- Materialization performs no external commands. -/
@[simp] theorem execCmds_matEv_map (l : List MatEvent) :
    execCmds (l.map Event.matEv) = [] := by
  induction l with
  | nil => rfl
  | cons a l ih => simp [execCmds, List.filterMap_cons, ih]

/-- Workspace cleanup performs no external commands. -/
@[simp] theorem execCmds_cleanup (env : Env) (id : String) :
    execCmds (cleanupWorkspace env id) = [] := by
  by_cases hg : cleanupGuard id <;> by_cases hr : env.removeOk <;>
    simp [cleanupWorkspace, hg, hr, execCmds, List.filterMap_cons]

/-- Every local pipeline run's first external command is the plain
dependency install. -/
theorem execCmds_createPreview (env : Env) (site id : String) :
    ∃ rest, execCmds (createPreview env site id).1 = npmInstallCmd :: rest := by
  by_cases hI : env.installOk
  · by_cases hB : env.buildOk
    · by_cases hD : env.distExists
      · by_cases hc : env.distEntries.contains indexHtml
        · rw [createPreview_success env site id hI hB hD hc]
          exact ⟨[npmBuildCmd], by simp [successTrace, execCmds, List.filterMap_cons]⟩
        · rw [createPreview_verify_fail env site id hI hB hD (by simpa using hc)]
          exact ⟨[npmBuildCmd], by simp [execCmds, List.filterMap_cons]⟩
      · rw [createPreview_no_dist env site id hI hB (by simpa using hD)]
        exact ⟨[npmBuildCmd], by simp [execCmds, List.filterMap_cons]⟩
    · rw [createPreview_build_fail env site id hI (by simpa using hB)]
      exact ⟨[npmBuildCmd], by simp [execCmds, List.filterMap_cons]⟩
  · rw [createPreview_install_fail env site id (by simpa using hI)]
    exact ⟨[], by simp [execCmds, List.filterMap_cons]⟩

/-- Counterexample to claim C5 as stated: in the local create handler, the
extra-dependency install is the first invoked command and the plain
install only runs after it (inside `createPreview`), so the plain install
is not invoked first. -/
theorem claim_C5_counterexample :
    execCmds (createHandler envOK reqLodash).1 =
      [depInstallCmd ["lodash"], npmInstallCmd, npmBuildCmd]
    ∧ (execCmds (createHandler envOK reqLodash).1).indexOf npmInstallCmd = 1
    ∧ (execCmds (createHandler envOK reqLodash).1).indexOf (depInstallCmd ["lodash"]) = 0 := by
  refine ⟨by decide, by decide, by decide⟩

/-- Claim C5 as amended: under the remote strategy the plain install is
invoked first and the extra-dependency install second; under the local
strategy the order is reversed — the extra-dependency install is invoked
first and the plain install runs after it, as the first step of
`createPreview`. -/
theorem claim_C5_amended (lenv : Env) (renv : RemoteEnv) (req : Request)
    (hdep : req.dependencies.isEmpty = false)
    (hmat : (remoteProcessList req.files).2 = none)
    (hrI : renv.installOk = true)
    (hlX : lenv.extraInstallOk = true) :
    (execCmds (remoteCreateHandler renv req).1).take 2 =
      [npmInstallCmd, depInstallCmd req.dependencies]
    ∧ (execCmds (createHandler lenv req).1).take 2 =
      [depInstallCmd req.dependencies, npmInstallCmd] := by
  constructor
  · rcases hm : remoteProcessList req.files with ⟨mevs, o⟩
    rw [hm] at hmat
    simp at hmat
    subst hmat
    by_cases hXr : renv.extraInstallOk
    · rcases hd : deployToVercel renv (previewRoot req.id) with ⟨devs, dres⟩
      cases dres <;> simp [remoteCreateHandler, hm, hrI, hdep, hXr, hd]
    · have hXr' : renv.extraInstallOk = false := by simpa using hXr
      simp [remoteCreateHandler, hm, hrI, hdep, hXr']
  · rw [createHandler_eq_of_extras_ok lenv req hlX]
    obtain ⟨rest, hrest⟩ := execCmds_createPreview lenv (previewRoot req.id) req.id
    simp [hdep, hrest]

/-- Witness for claim C5's amended theorem at concrete fully successful
environments. -/
theorem claim_C5_amended_witness :
    (execCmds (remoteCreateHandler renvOK reqLodash).1).take 2 =
      [npmInstallCmd, depInstallCmd ["lodash"]]
    ∧ (execCmds (createHandler envOK reqLodash).1).take 2 =
      [depInstallCmd ["lodash"], npmInstallCmd] :=
  claim_C5_amended envOK renvOK reqLodash (by decide) (by decide) rfl rfl

/-- Response of the local create handler, expressed without reference to
the removal outcome: the response reflects only the extra-install outcome
and the pipeline result. -/
def pipelineResponse (env : Env) (req : Request) : Response :=
  if req.dependencies.isEmpty = false ∧ env.extraInstallOk = false then
    Response.err 500 (PipelineError.installError env.extraInstallStderr)
  else
    match (createPreview env (previewRoot req.id) req.id).2 with
    | Except.ok r => Response.ok r
    | Except.error e => Response.err 500 e

/-- The local create handler's response is `pipelineResponse`; in
particular it does not depend on the cleanup outcome. -/
theorem createHandler_resp (env : Env) (req : Request) :
    (createHandler env req).2 = pipelineResponse env req := by
  rcases h : createPreview env (previewRoot req.id) req.id with ⟨pevs, res⟩
  by_cases hdep : req.dependencies.isEmpty <;>
    by_cases hX : env.extraInstallOk <;> cases res <;>
      simp [createHandler, pipelineResponse, hdep, hX, h]

/-- The same environment with the workspace-removal outcome replaced. -/
def envSetRemove (e : Env) (b : Bool) : Env :=
  ⟨e.installOk, e.installStderr, e.extraInstallOk, e.extraInstallStderr,
   e.buildOk, e.buildStderr, e.distExists, e.distEntries, b⟩

/-- The remote deployment's trace contains no removal event. -/
theorem noRemove_deploy (renv : RemoteEnv) (site p : String) :
    Event.removeDir p ∉ (deployToVercel renv site).1 := by
  by_cases hB : renv.buildOk <;> by_cases hA : renv.authOk <;>
    by_cases hP : renv.projectOk <;> by_cases hD : renv.deployOk <;>
      simp [deployToVercel, hB, hA, hP, hD]

/-- The remote create handler removes no directory on any path. -/
theorem noRemove_remote (renv : RemoteEnv) (req : Request) (p : String) :
    Event.removeDir p ∉ (remoteCreateHandler renv req).1 := by
  rcases hm : remoteProcessList req.files with ⟨mevs, o⟩
  cases o with
  | some e => simp [remoteCreateHandler, hm]
  | none =>
    by_cases hrI : renv.installOk
    · have hdev := noRemove_deploy renv (previewRoot req.id) p
      rcases hd : deployToVercel renv (previewRoot req.id) with ⟨devs, dres⟩
      rw [hd] at hdev
      by_cases hdep : req.dependencies.isEmpty
      · cases dres <;>
          simp [remoteCreateHandler, hm, hrI, hdep, hd, List.mem_append, hdev]
      · by_cases hXr : renv.extraInstallOk
        · cases dres <;>
            simp [remoteCreateHandler, hm, hrI, hdep, hXr, hd,
              List.mem_append, hdev]
        · have hXr' : renv.extraInstallOk = false := by simpa using hXr
          simp [remoteCreateHandler, hm, hrI, hdep, hXr']
    · have hrI' : renv.installOk = false := by simpa using hrI
      simp [remoteCreateHandler, hm, hrI']

/-- Counterexample to claim C6 as stated: a fully successful create
request under the remote strategy sends its success response while the
ephemeral workspace directory has never been removed. -/
theorem claim_C6_counterexample :
    (remoteCreateHandler renvOK reqNoDeps).2 =
      RemoteResponse.ok ⟨"https://x.vercel.app", "dep1", "proj1"⟩
    ∧ (remoteCreateHandler renvOK reqNoDeps).1.any isRemoveEvent = false := by
  refine ⟨by decide, by decide⟩

/-- Claim C6 as amended: under the local strategy, on both success and
failure paths the workspace removal (or, when removal fails, the logged
warning) happens before the response is sent whenever the handler's path
guard allows it, and the response does not depend on the removal outcome;
under the remote strategy, the ephemeral workspace directory is never
removed at all. -/
theorem claim_C6_amended (env : Env) (req : Request)
    (hg : cleanupGuard req.id = true) :
    (env.removeOk = true →
      Event.removeDir (previewRoot req.id) ∈ (createHandler env req).1)
    ∧ (env.removeOk = false →
      Event.warnCleanup (previewRoot req.id) ∈ (createHandler env req).1)
    ∧ (∀ b₁ b₂, (createHandler (envSetRemove env b₁) req).2 =
        (createHandler (envSetRemove env b₂) req).2)
    ∧ ∀ renv req2 p, Event.removeDir p ∉ (remoteCreateHandler renv req2).1 := by
  refine ⟨?_, ?_, ?_, fun renv req2 p => noRemove_remote renv req2 p⟩
  · intro hr
    rcases h : createPreview env (previewRoot req.id) req.id with ⟨pevs, res⟩
    by_cases hdep : req.dependencies.isEmpty <;>
      by_cases hX : env.extraInstallOk <;> cases res <;>
        simp [createHandler, hdep, hX, h, cleanupWorkspace, hg, hr]
  · intro hr
    rcases h : createPreview env (previewRoot req.id) req.id with ⟨pevs, res⟩
    by_cases hdep : req.dependencies.isEmpty <;>
      by_cases hX : env.extraInstallOk <;> cases res <;>
        simp [createHandler, hdep, hX, h, cleanupWorkspace, hg, hr]
  · intro b₁ b₂
    rw [createHandler_resp, createHandler_resp]
    rfl

/-- Witness for claim C6's amended theorem at a concrete successful local
run. -/
theorem claim_C6_amended_witness :
    cleanupGuard ("abc123") = true
    ∧ Event.removeDir (previewRoot ("abc123")) ∈ (createHandler envOK reqNoDeps).1 :=
  ⟨by decide, (claim_C6_amended envOK reqNoDeps (by decide)).1 rfl⟩

/-- Counterexample to claim C7 as stated: under the remote strategy, a
File node with absent content makes the create request fail with the
`TypeError`-driven 500 response, and no zero-length file is written. -/
theorem claim_C7_counterexample :
    (remoteCreateHandler renvOK ⟨"abc", [FileNode.file ("notes.txt") none], []⟩).2 =
      RemoteResponse.err 500 PipelineError.typeError
    ∧ ((remoteCreateHandler renvOK ⟨"abc", [FileNode.file ("notes.txt") none], []⟩).1.contains
        (Event.matEv (MatEvent.write ("notes.txt") ("")))) = false := by
  refine ⟨by decide, by decide⟩

/-- Claim C7 as amended: under the local strategy a File node with absent
content materializes a zero-length file and the pipeline proceeds — the
local materializer is total and the handler's response never depends on
the submitted nodes; under the remote strategy the same node makes the
request fail with the `TypeError` 500 response. -/
theorem claim_C7_amended :
    (∀ p, processFile (FileNode.file p none) = [MatEvent.write p ("")])
    ∧ (∀ env id files deps,
        (createHandler env ⟨id, files, deps⟩).2 = (createHandler env ⟨id, [], deps⟩).2)
    ∧ (∀ env id p deps,
        Event.matEv (MatEvent.write p ("")) ∈
          (createHandler env ⟨id, [FileNode.file p none], deps⟩).1)
    ∧ (∀ renv id p deps,
        (remoteCreateHandler renv ⟨id, [FileNode.file p none], deps⟩).2 =
          RemoteResponse.err 500 PipelineError.typeError) := by
  refine ⟨fun p => by simp [processFile], ?_, ?_, ?_⟩
  · intro env id files deps
    rw [createHandler_resp, createHandler_resp]
    rfl
  · intro env id p deps
    rcases h : createPreview env (previewRoot id) id with ⟨pevs, res⟩
    by_cases hdep : (deps : List String).isEmpty <;>
      by_cases hX : env.extraInstallOk <;> cases res <;>
        simp [createHandler, processFileList, processFile, hdep, hX, h]
  · intro renv id p deps
    simp [remoteCreateHandler, remoteProcessList, remoteProcessTop]

/-- Path-prefix is reflexive. -/
theorem isPathPrefix_refl (p : FsPath) : isPathPrefix p p = true := by
  induction p with
  | nil => rfl
  | cons a as ih => simp [isPathPrefix, ih]

/-- Removing a subtree removes its root. -/
theorem removeSubtree_not_mem_self (root : FsPath) (fs : List FsPath) :
    root ∉ removeSubtree root fs := by
  simp [removeSubtree, List.mem_filter, isPathPrefix_refl]

/-- Claim C8: the public-cleanup operation is idempotent: for every id,
invoking cleanup when the public directory for that id is absent responds
with success and raises no error, so calling cleanup twice in succession
produces no error on the second call. -/
theorem claim_C8 :
    (∀ b id fs, fs.contains (["public", id] : FsPath) = false →
      cleanupPublicHandler b id fs = (fs, true, none))
    ∧ (∀ b id fs,
        cleanupPublicHandler b id (cleanupPublicHandler true id fs).1 =
          ((cleanupPublicHandler true id fs).1, true, none)) := by
  constructor
  · intro b id fs h
    have h2 : (["public", id] : FsPath) ∉ fs := by simpa using h
    simp [cleanupPublicHandler, h2]
  · intro b id fs
    by_cases hex : (["public", id] : FsPath) ∈ fs
    · have h1 : (cleanupPublicHandler true id fs).1 =
          removeSubtree (["public", id]) fs := by
        simp [cleanupPublicHandler, hex]
      rw [h1]
      simp [cleanupPublicHandler, removeSubtree_not_mem_self]
    · have h1 : (cleanupPublicHandler true id fs).1 = fs := by
        simp [cleanupPublicHandler, hex]
      rw [h1]
      simp [cleanupPublicHandler, hex]

/-- Witness for claim C8 at a concrete filesystem with no `public/xyz`. -/
theorem claim_C8_witness :
    ([["public", "abc"], ["previews", "xyz"]] : List FsPath).contains
      (["public", "xyz"]) = false
    ∧ cleanupPublicHandler true ("xyz")
        [["public", "abc"], ["previews", "xyz"]] =
      ([["public", "abc"], ["previews", "xyz"]], true, none) :=
  ⟨by decide, claim_C8.1 true ("xyz") _ (by decide)⟩

/-- Events of an artifact verification are verification checks only. -/
theorem removeDir_not_mem_verify (p dir : String) (entries req : List String) :
    Event.removeDir p ∉ (verifyBuildArtifacts dir entries req).1 := by
  induction req with
  | nil => simp [verifyBuildArtifacts]
  | cons f rest ih =>
    by_cases hc : f ∈ entries
    · simp [verifyBuildArtifacts, hc, ih]
    · simp [verifyBuildArtifacts, hc]

/-- The local pipeline itself removes no directory. -/
theorem removeDir_not_mem_createPreview (env : Env) (site id p : String) :
    Event.removeDir p ∉ (createPreview env site id).1 := by
  by_cases hI : env.installOk
  · by_cases hB : env.buildOk
    · by_cases hD : env.distExists
      · by_cases hc : env.distEntries.contains indexHtml
        · rw [createPreview_success env site id hI hB hD hc]
          simp [successTrace]
        · rw [createPreview_verify_fail env site id hI hB hD (by simpa using hc)]
          simp
      · rw [createPreview_no_dist env site id hI hB (by simpa using hD)]
        simp
    · rw [createPreview_build_fail env site id hI (by simpa using hB)]
      simp
  · rw [createPreview_install_fail env site id (by simpa using hI)]
    simp

/-- Claim C9: removal of the ephemeral preview workspace directory never
removes or modifies anything under the public output directory: on both
success and failure paths the only directory the local handler ever
removes is the workspace `previews/{id}`, and removing that subtree leaves
every path under `public/` exactly as it was. -/
theorem claim_C9 :
    (∀ env req p, Event.removeDir p ∈ (createHandler env req).1 →
      p = previewRoot req.id)
    ∧ (∀ id fs p, isPathPrefix ["public"] p = true →
        (p ∈ workspaceCleanupFS id fs ↔ p ∈ fs)) := by
  constructor
  · intro env req p hmem
    rcases h : createPreview env (previewRoot req.id) req.id with ⟨pevs, res⟩
    have hnp : Event.removeDir p ∉ pevs := by
      have h2 := removeDir_not_mem_createPreview env (previewRoot req.id) req.id p
      rw [h] at h2
      exact h2
    by_cases hdep : req.dependencies.isEmpty <;>
      by_cases hX : env.extraInstallOk <;>
        by_cases hg : cleanupGuard req.id <;>
          by_cases hr : env.removeOk <;> cases res <;>
            simp [createHandler, cleanupWorkspace, hdep, hX, hg, hr, h, hnp]
              at hmem <;>
              exact hmem
  · intro id fs p hp
    cases p with
    | nil => simp [isPathPrefix] at hp
    | cons q t =>
      have hq : q = "public" := by
        have h2 : ("public" == q && isPathPrefix ([] : FsPath) t) = true := by
          simpa [isPathPrefix] using hp
        have h3 := (Bool.and_eq_true _ _).mp h2
        exact (beq_iff_eq.mp h3.1).symm
      have hnot : isPathPrefix ["previews", id] (q :: t) = false := by
        rw [hq]
        have hne : (("previews" : String) == "public") = false := by decide
        simp [isPathPrefix, hne]
      by_cases hg : cleanupGuard id
      · simp [workspaceCleanupFS, hg, removeSubtree, List.mem_filter, hnot]
      · simp [workspaceCleanupFS, hg]

/-- Witness for claim C9 at a concrete trace membership and a concrete
filesystem. -/
theorem claim_C9_witness :
    Event.removeDir (previewRoot ("abc123")) ∈ (createHandler envOK reqNoDeps).1
    ∧ isPathPrefix ["public"] (["public", "abc123", "index.html"]) = true
    ∧ ((["public", "abc123", "index.html"] : FsPath) ∈
        workspaceCleanupFS ("abc123")
          [["public", "abc123", "index.html"], ["previews", "abc123", "x"]]
      ↔ (["public", "abc123", "index.html"] : FsPath) ∈
        ([["public", "abc123", "index.html"], ["previews", "abc123", "x"]] :
          List FsPath)) :=
  ⟨by decide, by decide,
   claim_C9.2 ("abc123") _ _ (by decide)⟩

/-- Content whose closing fence line is followed by a final newline. -/
def fencedTrailingNewline : String := "```\nA\n```\n"

/-- Fenced content with no closing fence line at all. -/
def fencedUnterminated : String := "```\nA\nB"

/-- Claim C10: whenever submitted File content begins with the fence
marker, materialization unconditionally drops exactly the first and the
last element of the content split on newlines: if the content ends with a
newline after the closing fence line, the closing fence line itself is
written to disk (only the trailing empty segment is removed), and if the
content has no closing fence line at all, its final content line is
silently lost. -/
theorem claim_C10 :
    (∀ p c, jsStartsWith c fence = true →
      processFile (FileNode.file p (some c)) =
        [MatEvent.write p (joinWithNewline (((jsSplitLines c).drop 1).dropLast))])
    ∧ processFile (FileNode.file ("a") (some fencedTrailingNewline)) =
        [MatEvent.write ("a") ("A\n```")]
    ∧ processFile (FileNode.file ("b") (some fencedUnterminated)) =
        [MatEvent.write ("b") ("A")] := by
  refine ⟨?_, by decide, by decide⟩
  intro p c h
  simp [processFile, stripFence, h]

/-- Witness for claim C10's universally quantified part at a concrete
fence-marked content. -/
theorem claim_C10_witness :
    jsStartsWith fencedTrailingNewline fence = true
    ∧ processFile (FileNode.file ("w") (some fencedTrailingNewline)) =
        [MatEvent.write ("w")
          (joinWithNewline (((jsSplitLines fencedTrailingNewline).drop 1).dropLast))] :=
  ⟨by decide, claim_C10.1 ("w") fencedTrailingNewline (by decide)⟩

/-- Content used to refute claim C2: a fenced block whose closing fence
line is followed by a final newline. -/
def cexContent : String := "```\nhello\n```\n"

/-- Counterexample to claim C2 as stated: on content whose closing fence
line is followed by a newline, the materialized content still contains the
closing fence-delimiter line — only the empty segment after the final
newline was dropped — so it is not the submitted content with one leading
and one trailing fence-delimiter line removed (the spec-modelled strip
yields a fence-free result on this input). -/
theorem claim_C2_counterexample :
    processFile (FileNode.file ("src/App.tsx") (some cexContent)) =
      [MatEvent.write ("src/App.tsx") ("hello\n```")]
    ∧ jsIncludes ("hello\n```") fence = true
    ∧ specFenceStrip cexContent = "hello\n"
    ∧ jsIncludes (specFenceStrip cexContent) fence = false := by
  refine ⟨by decide, by decide, by decide, by decide⟩

/-- Scenario content from the spec, a well-formed fenced block with no
trailing newline. -/
def scenarioContent : String :=
  "```\nexport default function App()\x7breturn null\x7d\n```"

/-- Claim C2 as amended: non-fence content is written verbatim; content
beginning with the fence marker is written with exactly the first and the
last newline-split segments removed — which removes one leading and one
trailing fence-delimiter line precisely when the closing fence is the
final segment, as in the spec's own scenario, but retains the closing
fence line when a newline follows it. -/
theorem claim_C2_amended :
    (∀ p c, jsStartsWith c fence = false →
      processFile (FileNode.file p (some c)) = [MatEvent.write p c])
    ∧ (∀ p c, jsStartsWith c fence = true →
      processFile (FileNode.file p (some c)) =
        [MatEvent.write p (joinWithNewline (((jsSplitLines c).drop 1).dropLast))])
    ∧ processFile (FileNode.file ("src/App.tsx") (some scenarioContent)) =
        [MatEvent.write ("src/App.tsx")
          ("export default function App()\x7breturn null\x7d")] := by
  refine ⟨?_, ?_, by decide⟩
  · intro p c h
    simp [processFile, stripFence, h]
  · intro p c h
    simp [processFile, stripFence, h]

/-- Witness for claim C2's amended theorem at concrete fenced and
non-fenced contents. -/
theorem claim_C2_amended_witness :
    jsStartsWith ("plain text") fence = false
    ∧ processFile (FileNode.file ("w") (some ("plain text"))) =
        [MatEvent.write ("w") ("plain text")] :=
  ⟨by decide, claim_C2_amended.1 ("w") ("plain text") (by decide)⟩

end GretaPreview
